import Mathlib

/-!
Verification of `src/python/class.py`: a `Person` class with fields `name`
and `age` and methods `greet`, `birthday`, `capitalize_name`, plus a script
block that constructs `Person("alice", 30)` and calls the three methods in
order, printing each returned sentence.

Modelling choices:
* Python strings are `String` (a list of unicode scalar values); Python's
  arbitrary-precision `int` is `Int`.
* Each method is embedded as a function `Person → String × Person`: the
  returned message paired with the post-call state (Python mutates `self`
  in place; we pass the state explicitly).
* Python's `str.capitalize()` is modelled on the ASCII range, where it
  agrees with Lean's `Char.toUpper`/`Char.toLower` (first character
  uppercased, all following characters lowercased); characters outside the
  ASCII letters are left unchanged by these conversions.
* Python f-string interpolation of an `int` agrees with `toString : Int →
  String` (decimal, `-` sign for negatives).
-/

/-- State of a Python `Person` object: the two instance attributes set by
`__init__`. -/
structure Person where
  name : String
  age : Int
  deriving Repr, DecidableEq

namespace Person

/-- Embeds `Person.__init__(self, name, age)`: stores both arguments in the
corresponding attributes. -/
def construct (name : String) (age : Int) : Person :=
  { name := name, age := age }

/-- Embeds `Person.greet`: returns
`f"Hello, my name is {self.name} and I'm {self.age} years old."` and leaves
the state untouched. -/
def greet (p : Person) : String × Person :=
  ("Hello, my name is " ++ p.name ++ " and I'm " ++ toString p.age ++
    " years old.", p)

/-- Embeds `Person.birthday`: executes `self.age += 1`, then returns
`f"Happy Birthday! You are now {self.age} years old."`. -/
def birthday (p : Person) : String × Person :=
  let q : Person := { p with age := p.age + 1 }
  ("Happy Birthday! You are now " ++ toString q.age ++ " years old.", q)

end Person

/-- Embeds Python's `str.capitalize()` on the ASCII model: the first
character is uppercased and every following character is lowercased; the
empty string is returned unchanged. -/
def pyCapitalize (s : String) : String :=
  match s with
  | ⟨[]⟩ => ⟨[]⟩
  | ⟨c :: cs⟩ => ⟨c.toUpper :: cs.map Char.toLower⟩

namespace Person

/-- Embeds `Person.capitalize_name`: executes
`self.name = self.name.capitalize()`, then returns
`f"Name capitalized: {self.name}"`. -/
def capitalize_name (p : Person) : String × Person :=
  let q : Person := { p with name := pyCapitalize p.name }
  ("Name capitalized: " ++ q.name, q)

end Person

/-- Embeds the `if __name__ == "__main__":` block: constructs
`Person("alice", 30)` and prints the results of `greet()`, `birthday()`,
`capitalize_name()` in that order, one sentence per line. -/
def mainOutput : List String :=
  let person := Person.construct "alice" 30
  let (l1, person) := person.greet
  let (l2, person) := person.birthday
  let (l3, _) := person.capitalize_name
  [l1, l2, l3]

/-- Output of the script block, as observed in the spec's section 6. -/
theorem mainOutput_eq : mainOutput =
    ["Hello, my name is alice and I'm 30 years old.",
     "Happy Birthday! You are now 31 years old.",
     "Name capitalized: Alice"] := by decide

/-- Conversion of a valid codepoint back to `Nat` is the identity. -/
theorem charToNat_ofNat {n : Nat} (h : n.isValidChar) : (Char.ofNat n).toNat = n := by
  rw [Char.ofNat, dif_pos h]
  rfl

/-- Uppercasing an already-uppercased character changes nothing. -/
theorem charToUpper_idem (c : Char) : c.toUpper.toUpper = c.toUpper := by
  simp only [Char.toUpper]
  by_cases h : c.toNat ≥ 97 ∧ c.toNat ≤ 122
  · rw [if_pos h, charToNat_ofNat (Or.inl (by omega)), if_neg (by omega)]
  · rw [if_neg h, if_neg h]

/-- Lowercasing an already-lowercased character changes nothing. -/
theorem charToLower_idem (c : Char) : c.toLower.toLower = c.toLower := by
  simp only [Char.toLower]
  by_cases h : c.toNat ≥ 65 ∧ c.toNat ≤ 90
  · rw [if_pos h, charToNat_ofNat (Or.inl (by omega)), if_neg (by omega)]
  · rw [if_neg h, if_neg h]

/-- Statement of the spec's capitalization contract, written from the spec's
words rather than from the source: the new string has the same length as the
old one, its first character is the uppercased first character of the old
one, and every later character is the lowercased character of the old one at
the same position. -/
def capitalizedStatement (old new : String) : Prop :=
  new.data.length = old.data.length ∧
  ∀ i, i < old.data.length →
    new.data[i]? = (old.data[i]?).map fun c => if i = 0 then c.toUpper else c.toLower

/-- Auxiliary: `pyCapitalize` satisfies the spec's capitalization contract. -/
theorem pyCapitalize_capitalizes (s : String) : capitalizedStatement s (pyCapitalize s) := by
  obtain ⟨l⟩ := s
  cases l with
  | nil => exact ⟨rfl, fun i hi => absurd hi (by simp)⟩
  | cons c cs =>
    refine ⟨by simp [pyCapitalize], fun i hi => ?_⟩
    cases i with
    | zero => simp [pyCapitalize]
    | succ j => simp [pyCapitalize]

/-- Auxiliary: `pyCapitalize` is idempotent. -/
theorem pyCapitalize_idem (s : String) : pyCapitalize (pyCapitalize s) = pyCapitalize s := by
  obtain ⟨l⟩ := s
  cases l with
  | nil => rfl
  | cons c cs =>
    simp only [pyCapitalize, charToUpper_idem, List.map_map]
    congr 2
    exact List.map_congr_left fun a _ => charToLower_idem a

/-- Trace of `n` successive `birthday()` calls on a `Person` object: the
list of returned messages in call order, paired with the final state. -/
def birthdayTrace : Nat → Person → List String × Person
  | 0, p => ([], p)
  | n + 1, p =>
    ((p.birthday).1 :: (birthdayTrace n (p.birthday).2).1,
      (birthdayTrace n (p.birthday).2).2)

/-- Models Python `int.__add__` on two `int` values: total, arbitrary
precision, no exception path. -/
def pyIntAdd (a b : Int) : Except String Int := Except.ok (a + b)

/-- Models Python `str.capitalize` on a `str` value: total, no exception
path. -/
def pyStrCapitalize (s : String) : Except String String := Except.ok (pyCapitalize s)

namespace Person

/-- Error-aware embedding of `greet`: attribute reads and f-string
formatting of a `str` and an `int` cannot raise, so the body has no error
path. -/
def greetChecked (p : Person) : Except String (String × Person) :=
  Except.ok ("Hello, my name is " ++ p.name ++ " and I'm " ++ toString p.age ++
    " years old.", p)

/-- Error-aware embedding of `birthday`: the one operation on data,
`self.age + 1`, goes through `pyIntAdd`. -/
def birthdayChecked (p : Person) : Except String (String × Person) := do
  let newAge ← pyIntAdd p.age 1
  let q : Person := { p with age := newAge }
  Except.ok ("Happy Birthday! You are now " ++ toString q.age ++ " years old.", q)

/-- Error-aware embedding of `capitalize_name`: the one operation on data,
`self.name.capitalize()`, goes through `pyStrCapitalize`. -/
def capitalizeNameChecked (p : Person) : Except String (String × Person) := do
  let newName ← pyStrCapitalize p.name
  let q : Person := { p with name := newName }
  Except.ok ("Name capitalized: " ++ q.name, q)

end Person

/-- C1: for every string stored in `name`, `capitalize_name` replaces `name`
with a string whose first character is the uppercased original first
character and whose later characters are the lowercased originals, and
returns the sentence `"Name capitalized: "` followed by the new name. -/
theorem capitalize_name_correct (p : Person) :
    capitalizedStatement p.name (p.capitalize_name).2.name ∧
    (p.capitalize_name).1 = "Name capitalized: " ++ (p.capitalize_name).2.name :=
  ⟨pyCapitalize_capitalizes p.name, rfl⟩

/-- C2: `birthday` increments `age` by exactly 1 and returns the sentence
reporting the post-increment age. -/
theorem birthday_increments (p : Person) :
    (p.birthday).2.age = p.age + 1 ∧
    (p.birthday).1 =
      "Happy Birthday! You are now " ++ toString (p.age + 1) ++ " years old." :=
  ⟨rfl, rfl⟩

/-- C3: `greet` returns the sentence interpolating the stored `name` and
`age` verbatim and leaves the state unchanged. -/
theorem greet_reports_state (p : Person) :
    (p.greet).1 =
      "Hello, my name is " ++ p.name ++ " and I'm " ++ toString p.age ++
        " years old." ∧
    (p.greet).2 = p :=
  ⟨rfl, rfl⟩

/-- C4: calling `birthday` `n` times in sequence increases `age` by exactly
`n`, leaves `name` unchanged, and the message returned by the `i`-th call
(0-based) reports the age after that call's increment. -/
theorem birthday_iterated (n : Nat) (p : Person) :
    (birthdayTrace n p).2.age = p.age + n ∧
    (birthdayTrace n p).2.name = p.name ∧
    ∀ i, i < n → (birthdayTrace n p).1[i]? =
      some ("Happy Birthday! You are now " ++ toString (p.age + i + 1) ++
        " years old.") := by
  induction n generalizing p with
  | zero =>
    exact ⟨by simp [birthdayTrace], rfl, fun i hi => absurd hi (by omega)⟩
  | succ n ih =>
    obtain ⟨hAge, hName, hMsgs⟩ := ih (p.birthday).2
    simp only [birthdayTrace]
    refine ⟨?_, hName, ?_⟩
    · rw [hAge]
      show p.age + 1 + (n : Int) = p.age + ((n + 1 : Nat) : Int)
      push_cast
      ring
    · intro i hi
      cases i with
      | zero =>
        simp only [List.getElem?_cons_zero]
        simp [Person.birthday]
      | succ j =>
        simp only [List.getElem?_cons_succ]
        rw [hMsgs j (by omega)]
        have harith : (p.birthday).2.age + (j : Int) + 1 = p.age + ((j : Nat) + 1 : Nat) + 1 := by
          show p.age + 1 + (j : Int) + 1 = _
          push_cast
          ring
        rw [harith]

/-- C5: frame conditions — `greet` changes neither field, `birthday` leaves
`name` unchanged, and `capitalize_name` leaves `age` unchanged. -/
theorem frame_conditions (p : Person) :
    (p.greet).2 = p ∧
    (p.birthday).2.name = p.name ∧
    (p.capitalize_name).2.age = p.age :=
  ⟨rfl, rfl, rfl⟩

/-- C6: starting from `Person("alice", 30)`, `greet` returns the greeting
with the stored values, then `birthday` returns the sentence for age 31 and
the age is 31, then `capitalize_name` returns the sentence for `"Alice"` and
the name is `"Alice"`. -/
theorem scenario_alice :
    ((Person.construct "alice" 30).greet).1 =
      "Hello, my name is alice and I'm 30 years old." ∧
    (((Person.construct "alice" 30).greet).2.birthday).1 =
      "Happy Birthday! You are now 31 years old." ∧
    (((Person.construct "alice" 30).greet).2.birthday).2.age = 31 ∧
    ((((Person.construct "alice" 30).greet).2.birthday).2.capitalize_name).1 =
      "Name capitalized: Alice" ∧
    ((((Person.construct "alice" 30).greet).2.birthday).2.capitalize_name).2.name =
      "Alice" := by
  decide

/-- C7: the constructor stores both arguments verbatim in the corresponding
fields; being a total function, it succeeds on every input. -/
theorem construct_stores_verbatim (name : String) (age : Int) :
    (Person.construct name age).name = name ∧
    (Person.construct name age).age = age :=
  ⟨rfl, rfl⟩

/-- C8: on every well-typed state, the error-aware embeddings of the three
methods return a successful string result — the one produced by the pure
embedding — and never an error. -/
theorem methods_never_raise (p : Person) :
    p.greetChecked = Except.ok p.greet ∧
    p.birthdayChecked = Except.ok p.birthday ∧
    p.capitalizeNameChecked = Except.ok p.capitalize_name :=
  ⟨rfl, rfl, rfl⟩

/-- C9: `capitalize_name` is idempotent — a second call leaves `name` at the
value the first call produced and returns the same sentence as the first
call. -/
theorem capitalize_name_idempotent (p : Person) :
    (((p.capitalize_name).2.capitalize_name)).2.name = (p.capitalize_name).2.name ∧
    (((p.capitalize_name).2.capitalize_name)).1 = (p.capitalize_name).1 := by
  constructor
  · exact pyCapitalize_idem p.name
  · show "Name capitalized: " ++ pyCapitalize (pyCapitalize p.name) =
      "Name capitalized: " ++ pyCapitalize p.name
    rw [pyCapitalize_idem]

/-- C10: with the empty string stored in `name`, `capitalize_name` leaves
`name` empty and returns exactly the sentence with an empty name. -/
theorem capitalize_name_empty (age : Int) :
    ((Person.construct "" age).capitalize_name).2.name = "" ∧
    ((Person.construct "" age).capitalize_name).1 = "Name capitalized: " := by
  constructor
  · rfl
  · show "Name capitalized: " ++ pyCapitalize "" = "Name capitalized: "
    decide
